import Mathlib

/-
Verification of the crustpoint e-paper display driver.

The development shallowly embeds the driver sources:
  * src/eink_display/frame.rs   (bit-packed frame buffer, pixel drawing)
  * src/eink_display/mod.rs     (SSD1677 controller protocol state machine)
  * src/eink_display/error.rs   (error taxonomy)

Machine integers are modelled as Nat with explicit wrap-around (`% 2^16`
for u16, `% 2^64` for usize); Rust panics (arithmetic overflow in debug
builds, slice index out of range) are modelled as the `none` outcome of an
`Option`.  Fallible driver operations return `Except` over error types
mirroring error.rs, and the SPI transport plus the busy line are an
explicit environment of oracles.
-/

namespace Crustpoint

/-- Wrapping u16 subtraction: `(a - b) mod 2^16` for u16 operands. -/
def wsub16 (a b : Nat) : Nat := (a % 65536 + (65536 - b % 65536)) % 65536

/-- Wrapping u16 addition: `(a + b) mod 2^16` for u16 operands. -/
def wadd16 (a b : Nat) : Nat := (a % 65536 + b % 65536) % 65536

/-- Wrapping usize (64-bit) subtraction. -/
def wsub64 (a b : Nat) : Nat :=
  (a % 18446744073709551616 + (18446744073709551616 - b % 18446744073709551616)) %
    18446744073709551616

/-- Wrapping usize (64-bit) addition. -/
def wadd64 (a b : Nat) : Nat :=
  (a % 18446744073709551616 + b % 18446744073709551616) % 18446744073709551616

/-- Wrapping usize (64-bit) multiplication. -/
def wmul64 (a b : Nat) : Nat :=
  (a % 18446744073709551616 * (b % 18446744073709551616)) % 18446744073709551616

/-- `DISPLAY_WIDTH` from src/eink_display/mod.rs. -/
def DISPLAY_WIDTH : Nat := 800

/-- `DISPLAY_HEIGHT` from src/eink_display/mod.rs. -/
def DISPLAY_HEIGHT : Nat := 480

/-- `Frame::WIDTH_BYTES = DISPLAY_WIDTH / 8` from src/eink_display/frame.rs. -/
def WIDTH_BYTES : Nat := DISPLAY_WIDTH / 8

/-- `Frame::BUFFER_SIZE = WIDTH_BYTES * HEIGHT` from src/eink_display/frame.rs. -/
def BUFFER_SIZE : Nat := WIDTH_BYTES * DISPLAY_HEIGHT

/-- `embedded_graphics::pixelcolor::BinaryColor` as used by `Frame::draw_iter`. -/
inductive BinaryColor where
  | Off
  | On
deriving DecidableEq, Repr

/-- `DrawError` from src/eink_display/frame.rs. -/
inductive DrawError where
  | OutOfBounds
deriving DecidableEq, Repr

/-- `Orientation` from src/eink_display/frame.rs. -/
inductive Orientation where
  | Portrait
  | Landscape
deriving DecidableEq, Repr

/-- `Frame` from src/eink_display/frame.rs: the byte array `[u8; BUFFER_SIZE]`
is modelled as a function from byte index to byte value (indices `>= BUFFER_SIZE`
are irrelevant: the draw code bounds-checks every access). -/
structure Frame where
  buffer : Nat → Nat
  orientation : Orientation

/-- `Frame::default()`: every byte `0b1111_1111`, portrait orientation. -/
def Frame.default : Frame := ⟨fun _ => 0b11111111, .Portrait⟩

/-- The loop body of `Frame::draw_iter` for one `Pixel(point, color)`
(src/eink_display/frame.rs lines 81-108); this is the spec's `draw_pixel`.
`px, py` are the `i32` point coordinates.  Result `none` models a Rust
panic (u16/usize arithmetic overflow in debug builds; for release builds
the wrapped index trips the slice bounds check, panicking at the same
inputs), `some (.error e, f)` the early `Err` return, `some (.ok (), f)`
the successful in-place bit update. -/
def draw_pixel (px py : Int) (color : BinaryColor) (f : Frame) :
    Option (Except DrawError Unit × Frame) :=
  -- u16::try_from(point.x) / u16::try_from(point.y)
  if px < 0 ∨ 65535 < px then some (.error .OutOfBounds, f)
  else if py < 0 ∨ 65535 < py then some (.error .OutOfBounds, f)
  else
    let x := px.toNat
    let y := py.toNat
    -- !X_RANGE.contains(&x) || !Y_RANGE.contains(&y)
    if ¬(x < DISPLAY_WIDTH ∧ y < DISPLAY_HEIGHT) then some (.error .OutOfBounds, f)
    else
      let x_hardware := y
      let y_hardware := wsub16 DISPLAY_HEIGHT x
      let y_index := wsub64 y_hardware 1
      let row_start := wmul64 y_index WIDTH_BYTES
      let row_pixel_index := x_hardware / 8
      let index := wadd64 row_start row_pixel_index
      if index < BUFFER_SIZE then
        let bit_index := 7 - x_hardware % 8
        let byte := f.buffer index
        let byte' := match color with
          | .Off => byte ||| (1 <<< bit_index)
          | .On => byte &&& (255 ^^^ (1 <<< bit_index))
        some (.ok (), { f with buffer := fun j => if j = index then byte' else f.buffer j })
      else none

/-- `Frame::draw_iter` (src/eink_display/frame.rs lines 74-111): applies
`draw_pixel` to each pixel in order, stopping at the first error (mirroring
the `?`-style early return) and propagating a panic. -/
def draw_iter : List (Int × Int × BinaryColor) → Frame →
    Option (Except DrawError Unit × Frame)
  | [], f => some (.ok (), f)
  | (px, py, c) :: rest, f =>
    match draw_pixel px py c f with
    | none => none
    | some (.error e, f') => some (.error e, f')
    | some (.ok _, f') => draw_iter rest f'

/-- `Command` from src/eink_display/mod.rs (protocol opcodes). -/
inductive Command where
  | SoftReset
  | TemperatureSensorControl
  | BoosterSoftStart
  | DriverOutputControl
  | BorderWaveformControl
  | DataEntryMode
  | SetRamXRange
  | SetRamYRange
  | SetRamXCounter
  | SetRamYCounter
  | AutoWriteBwRam
  | AutoWriteRedRam
  | WriteBwRam
  | WriteRedRam
  | DisplayUpdateControl1
  | DisplayUpdateControl2
  | MasterActivation
  | WriteTemperature
  | DeepSleep
deriving DecidableEq, Repr

/-- The `#[repr(u8)]` discriminants of `Command`. -/
def Command.toByte : Command → Nat
  | .SoftReset => 0x12
  | .TemperatureSensorControl => 0x18
  | .BoosterSoftStart => 0x0C
  | .DriverOutputControl => 0x01
  | .BorderWaveformControl => 0x3C
  | .DataEntryMode => 0x11
  | .SetRamXRange => 0x44
  | .SetRamYRange => 0x45
  | .SetRamXCounter => 0x4E
  | .SetRamYCounter => 0x4F
  | .AutoWriteBwRam => 0x46
  | .AutoWriteRedRam => 0x47
  | .WriteBwRam => 0x24
  | .WriteRedRam => 0x26
  | .DisplayUpdateControl1 => 0x21
  | .DisplayUpdateControl2 => 0x22
  | .MasterActivation => 0x20
  | .WriteTemperature => 0x1A
  | .DeepSleep => 0x10

/-- `ControlMode` from src/eink_display/mod.rs. -/
inductive ControlMode where
  | Normal
  | BypassRed
deriving DecidableEq, Repr

/-- The `#[repr(u8)]` discriminants of `ControlMode`. -/
def ControlMode.toByte : ControlMode → Nat
  | .Normal => 0x00
  | .BypassRed => 0x40

/-- `RefreshMode` from src/eink_display/mod.rs. -/
inductive RefreshMode where
  | Fast
  | Full
  | HalfRefresh
deriving DecidableEq, Repr

/-- Observable I/O events of the driver: a command byte on the wire, a data
byte sequence on the wire, a successful busy wait, the stray
`data_command.set_high()` in `display`'s fast path, and the reset-pin
timing sequence of `reset`. -/
inductive Event where
  | command (b : Nat)
  | data (bs : List Nat)
  | waitBusy
  | dcHigh
  | resetHigh
  | resetLow
  | delayMs (n : Nat)
deriving DecidableEq, Repr

/-- The mutable driver state of `EinkDisplay` (flags `is_screen_on`,
`is_custom_lut_active`) together with the history of emitted I/O events and
counters indexing the environment oracles (how many SPI writes and busy
waits have been attempted so far). -/
structure Driver where
  isScreenOn : Bool
  isCustomLutActive : Bool
  trace : List Event
  writes : Nat
  waits : Nat

/-- The hardware environment: whether the n-th SPI write succeeds, and
whether the busy line goes low within the timeout on the n-th
`wait_for_busy`. -/
structure Env where
  writeOk : Nat → Bool
  busyClears : Nat → Bool

/-- The environment in which every transport write succeeds and every busy
wait completes in time. -/
def okEnv : Env := ⟨fun _ => true, fun _ => true⟩

/-- The environment in which writes succeed but the busy line never
deasserts, so every `wait_for_busy` times out. -/
def timeoutEnv : Env := ⟨fun _ => true, fun _ => false⟩

/-- Placeholder for `esp_hal::spi::Error` (the transport error payload). -/
inductive SpiError where
  | transport
deriving DecidableEq, Repr

/-- `SendCommandError` from src/eink_display/error.rs. -/
inductive SendCommandError where
  | mk (e : SpiError)
deriving DecidableEq, Repr

/-- `SendDataError` from src/eink_display/error.rs. -/
inductive SendDataError where
  | mk (e : SpiError)
deriving DecidableEq, Repr

/-- `WaitForBusyTimeoutError` from src/eink_display/error.rs (wraps the
payload-free `embassy_time::TimeoutError`). -/
inductive WaitForBusyTimeoutError where
  | mk
deriving DecidableEq, Repr

/-- `SetRamAreaError` from src/eink_display/error.rs. -/
inductive SetRamAreaError where
  | sendCommand (e : SendCommandError)
  | sendData (e : SendDataError)
deriving DecidableEq, Repr

/-- `InitializeControllerError` from src/eink_display/error.rs. -/
inductive InitializeControllerError where
  | sendCommand (e : SendCommandError)
  | sendData (e : SendDataError)
  | waitForBusy (e : WaitForBusyTimeoutError)
  | setRamArea (e : SetRamAreaError)
deriving DecidableEq, Repr

/-- `RefreshError` from src/eink_display/error.rs. -/
inductive RefreshError where
  | sendCommand (e : SendCommandError)
  | sendData (e : SendDataError)
  | waitForBusy (e : WaitForBusyTimeoutError)
deriving DecidableEq, Repr

/-- `DisplayError` from src/eink_display/error.rs. -/
inductive DisplayError where
  | setRamArea (e : SetRamAreaError)
  | sendCommand (e : SendCommandError)
  | sendData (e : SendDataError)
  | refresh (e : RefreshError)
deriving DecidableEq, Repr

/-- `EnterDeepSleepError` from src/eink_display/error.rs. -/
inductive EnterDeepSleepError where
  | sendCommand (e : SendCommandError)
  | sendData (e : SendDataError)
  | waitForBusy (e : WaitForBusyTimeoutError)
deriving DecidableEq, Repr

/-- The driver monad: state `Driver`, failing with `E`; the state is kept
on failure (in Rust `self` survives an `Err` return). -/
def M (E α : Type) := Driver → Except E α × Driver

instance : Monad (M E) where
  pure a := fun s => (.ok a, s)
  bind x f := fun s =>
    match x s with
    | (.ok a, s') => f a s'
    | (.error e, s') => (.error e, s')

/-- Rust's `?` with `#[from]` conversion: run `x`, mapping its error
through `g`. -/
def adaptE (g : E → E') (x : M E α) : M E' α := fun s =>
  match x s with
  | (.ok a, s') => (.ok a, s')
  | (.error e, s') => (.error (g e), s')

/-- Read the current driver state (access to `self`). -/
def getDriver : M E Driver := fun s => (.ok s, s)

/-- `self.is_screen_on = b`. -/
def setScreenOn (b : Bool) : M E Unit := fun s => (.ok (), { s with isScreenOn := b })

/-- The stray `self.data_command.set_high()` in `display`'s fast path. -/
def dcHighOp : M E Unit := fun s => (.ok (), { s with trace := s.trace ++ [.dcHigh] })

/-- `EinkDisplay::reset` (src/eink_display/mod.rs lines 155-165): the fixed
reset-pin timing sequence; infallible. -/
def hardware_reset : M E Unit := fun s =>
  (.ok (), { s with trace := s.trace ++
      [.resetHigh, .delayMs 20, .resetLow, .delayMs 2, .resetHigh, .delayMs 20] })

/-- `EinkDisplay::send_command` (src/eink_display/mod.rs lines 167-177):
drive the data/command pin low and write one byte; fails if the transport
write fails. -/
def send_command (env : Env) (c : Command) : M SendCommandError Unit := fun s =>
  if env.writeOk s.writes then
    (.ok (), { s with trace := s.trace ++ [.command c.toByte], writes := s.writes + 1 })
  else
    (.error (.mk .transport), { s with writes := s.writes + 1 })

/-- `EinkDisplay::send_data` (src/eink_display/mod.rs lines 179-189):
drive the data/command pin high and write the bytes. -/
def send_data (env : Env) (bs : List Nat) : M SendDataError Unit := fun s =>
  if env.writeOk s.writes then
    (.ok (), { s with trace := s.trace ++ [.data bs], writes := s.writes + 1 })
  else
    (.error (.mk .transport), { s with writes := s.writes + 1 })

/-- `EinkDisplay::wait_for_busy` (src/eink_display/mod.rs lines 191-196):
poll the busy line with a timeout. -/
def wait_for_busy (env : Env) : M WaitForBusyTimeoutError Unit := fun s =>
  if env.busyClears s.waits then
    (.ok (), { s with trace := s.trace ++ [.waitBusy], waits := s.waits + 1 })
  else
    (.error .mk, { s with waits := s.waits + 1 })

/-- `EinkDisplay::set_ram_area` (src/eink_display/mod.rs lines 198-252).
Arguments are u16 values (reduced mod 2^16 on entry to model the type);
`-` and `+` on them are the wrapping u16 operations. -/
def set_ram_area (env : Env) (x y width height : Nat) : M SetRamAreaError Unit := do
  let x := x % 65536
  let y := y % 65536
  let width := width % 65536
  let height := height % 65536
  -- let y = Self::DISPLAY_HEIGHT - y - height;
  let y := wsub16 (wsub16 DISPLAY_HEIGHT y) height
  adaptE .sendCommand (send_command env .DataEntryMode)
  adaptE .sendData (send_data env [0x01])
  adaptE .sendCommand (send_command env .SetRamXRange)
  adaptE .sendData (send_data env [x % 256])
  adaptE .sendData (send_data env [x / 256])
  adaptE .sendData (send_data env [wsub16 (wadd16 x width) 1 % 256])
  adaptE .sendData (send_data env [wsub16 (wadd16 x width) 1 / 256])
  adaptE .sendCommand (send_command env .SetRamYRange)
  adaptE .sendData (send_data env [wsub16 (wadd16 y height) 1 % 256])
  adaptE .sendData (send_data env [wsub16 (wadd16 y height) 1 / 256])
  adaptE .sendData (send_data env [y % 256])
  adaptE .sendData (send_data env [y / 256])
  adaptE .sendCommand (send_command env .SetRamXCounter)
  adaptE .sendData (send_data env [x % 256])
  adaptE .sendData (send_data env [x / 256])
  adaptE .sendCommand (send_command env .SetRamYCounter)
  adaptE .sendData (send_data env [wsub16 (wadd16 y height) 1 % 256])
  adaptE .sendData (send_data env [wsub16 (wadd16 y height) 1 / 256])

/-- `EinkDisplay::initialize_controller` (src/eink_display/mod.rs lines
254-306): the fixed power-on sequence. -/
def initialize_controller (env : Env) : M InitializeControllerError Unit := do
  adaptE .sendCommand (send_command env .SoftReset)
  adaptE .waitForBusy (wait_for_busy env)
  adaptE .sendCommand (send_command env .TemperatureSensorControl)
  adaptE .sendData (send_data env [0x80])
  adaptE .sendCommand (send_command env .BoosterSoftStart)
  adaptE .sendData (send_data env [0xAE])
  adaptE .sendData (send_data env [0xC7])
  adaptE .sendData (send_data env [0xC3])
  adaptE .sendData (send_data env [0xC0])
  adaptE .sendData (send_data env [0xC0])
  adaptE .sendData (send_data env [0x40])
  adaptE .sendCommand (send_command env .DriverOutputControl)
  adaptE .sendData (send_data env [wsub16 DISPLAY_HEIGHT 1 % 256])
  adaptE .sendData (send_data env [wsub16 DISPLAY_HEIGHT 1 / 256])
  adaptE .sendData (send_data env [0x02])
  adaptE .sendCommand (send_command env .BorderWaveformControl)
  adaptE .sendData (send_data env [0x01])
  adaptE .setRamArea (set_ram_area env 0 0 DISPLAY_WIDTH DISPLAY_HEIGHT)
  adaptE .sendCommand (send_command env .AutoWriteBwRam)
  adaptE .sendData (send_data env [0xF7])
  adaptE .waitForBusy (wait_for_busy env)
  adaptE .sendCommand (send_command env .AutoWriteRedRam)
  adaptE .sendData (send_data env [0xF7])
  adaptE .waitForBusy (wait_for_busy env)

/-- `EinkDisplay::refresh` (src/eink_display/mod.rs lines 339-422): the
refresh state machine.  The mutable `display_mode` accumulator of the
source is threaded through shadowed lets. -/
def refresh (env : Env) (mode : RefreshMode) (turn_screen_off : Bool) :
    M RefreshError Unit :=
  adaptE .sendCommand (send_command env .DisplayUpdateControl1) >>= fun _ =>
  adaptE .sendData (send_data env
    [(match mode with
      | .Fast => ControlMode.Normal
      | .Full | .HalfRefresh => ControlMode.BypassRed).toByte, 0x00]) >>= fun _ =>
  -- let mut display_mode = 0x00; the accumulator is threaded through the binds
  (getDriver : M RefreshError Driver) >>= fun s0 =>
  (if !s0.isScreenOn then
    setScreenOn true >>= fun _ => pure ((0x00 : Nat) ||| 0xC0)
  else pure 0x00) >>= fun display_mode =>
  (if turn_screen_off then
    setScreenOn false >>= fun _ => pure (display_mode ||| 0x03)
  else pure display_mode) >>= fun display_mode =>
  (match mode with
   | .Fast =>
     (getDriver : M RefreshError Driver) >>= fun s1 =>
     pure (display_mode ||| (if s1.isCustomLutActive then 0x0C else 0x1C))
   | .Full => pure (display_mode ||| 0x34)
   | .HalfRefresh =>
     adaptE RefreshError.sendCommand (send_command env .WriteTemperature) >>= fun _ =>
     adaptE RefreshError.sendData (send_data env [0x5A]) >>= fun _ =>
     pure (display_mode ||| 0xD4)) >>= fun display_mode =>
  adaptE .sendCommand (send_command env .DisplayUpdateControl2) >>= fun _ =>
  adaptE .sendData (send_data env [display_mode]) >>= fun _ =>
  adaptE .sendCommand (send_command env .MasterActivation) >>= fun _ =>
  adaptE .waitForBusy (wait_for_busy env)

/-- `EinkDisplay::display` (src/eink_display/mod.rs lines 424-459): the
public entry point.  `frame_buffer` is the byte content of the frame. -/
def display (env : Env) (refresh_mode : RefreshMode) (frame_buffer : List Nat) :
    M DisplayError Unit :=
  (getDriver : M DisplayError Driver) >>= fun s =>
  let refresh_mode := if !s.isScreenOn then RefreshMode.HalfRefresh else refresh_mode
  adaptE .setRamArea (set_ram_area env 0 0 DISPLAY_WIDTH DISPLAY_HEIGHT) >>= fun _ =>
  (match refresh_mode with
   | .Fast =>
     adaptE DisplayError.sendCommand (send_command env .WriteBwRam) >>= fun _ =>
     dcHighOp >>= fun _ =>
     adaptE DisplayError.sendData (send_data env frame_buffer)
   | .HalfRefresh | .Full =>
     adaptE DisplayError.sendCommand (send_command env .WriteBwRam) >>= fun _ =>
     adaptE DisplayError.sendData (send_data env frame_buffer) >>= fun _ =>
     adaptE DisplayError.sendCommand (send_command env .WriteRedRam) >>= fun _ =>
     adaptE DisplayError.sendData (send_data env frame_buffer)) >>= fun _ =>
  adaptE .refresh (refresh env refresh_mode false)

/-- `EinkDisplay::enter_deep_sleep` (src/eink_display/mod.rs lines
461-485). -/
def enter_deep_sleep (env : Env) : M EnterDeepSleepError Unit :=
  (getDriver : M EnterDeepSleepError Driver) >>= fun s =>
  (if s.isScreenOn then
    adaptE EnterDeepSleepError.sendCommand (send_command env .DisplayUpdateControl1) >>= fun _ =>
    adaptE EnterDeepSleepError.sendData (send_data env [ControlMode.BypassRed.toByte]) >>= fun _ =>
    adaptE EnterDeepSleepError.sendCommand (send_command env .DisplayUpdateControl2) >>= fun _ =>
    adaptE EnterDeepSleepError.sendData (send_data env [0b00000011]) >>= fun _ =>
    adaptE EnterDeepSleepError.waitForBusy (wait_for_busy env) >>= fun _ =>
    setScreenOn false
  else pure ()) >>= fun _ =>
  adaptE .sendCommand (send_command env .DeepSleep) >>= fun _ =>
  adaptE .sendData (send_data env [0x01])

/-- The driver state right after `EinkDisplay::new` (src/eink_display/mod.rs
lines 145-152): `is_screen_on: false, is_custom_lut_active: false`, nothing
emitted yet. -/
def initialDriver : Driver := ⟨false, false, [], 0, 0⟩

/-- The checked u16 subtraction `a - b`: `none` models the arithmetic
underflow trap. -/
def checkedSub16 (a b : Nat) : Option Nat :=
  if b ≤ a then some (a - b) else none

/-- The checked u16 addition `a + b`: `none` models the overflow trap. -/
def checkedAdd16 (a b : Nat) : Option Nat :=
  if a + b ≤ 65535 then some (a + b) else none

/-- The u16 arithmetic performed by `set_ram_area` (src/eink_display/mod.rs
lines 198-252) with trap-on-overflow semantics, in source order:
`DISPLAY_HEIGHT - y - height`, `x + width - 1`, `y' + height - 1`.
Returns the three derived values `(y', x_end, y_high)` when no expression
underflows or overflows. -/
def setRamAreaArith (x y width height : Nat) : Option (Nat × Nat × Nat) := do
  let d ← checkedSub16 DISPLAY_HEIGHT y
  let y' ← checkedSub16 d height
  let xw ← checkedAdd16 x width
  let xEnd ← checkedSub16 xw 1
  let yh ← checkedAdd16 y' height
  let yHigh ← checkedSub16 yh 1
  pure (y', xEnd, yHigh)

/-- The byte sequence claim C5 describes for `set_ram_area(x, y, width,
height)`, built with exact (non-wrapping) arithmetic from the spec's
formulas: data-entry mode 0x01, X range `[x, x+width-1]` split low/high,
Y range with `y' = H - y - height` as `[y'+height-1, y']` split low/high,
then the X counter at `x` and the Y counter at `y'+height-1`. -/
def specRamAreaTrace (x y width height : Nat) : List Event :=
  let yr := DISPLAY_HEIGHT - y - height
  [Event.command 0x11, Event.data [0x01],
   Event.command 0x44, Event.data [x % 256], Event.data [x / 256],
   Event.data [(x + width - 1) % 256], Event.data [(x + width - 1) / 256],
   Event.command 0x45, Event.data [(yr + height - 1) % 256],
   Event.data [(yr + height - 1) / 256],
   Event.data [yr % 256], Event.data [yr / 256],
   Event.command 0x4E, Event.data [x % 256], Event.data [x / 256],
   Event.command 0x4F, Event.data [(yr + height - 1) % 256],
   Event.data [(yr + height - 1) / 256]]

/-- The display-mode bit-flag byte as claim C3 describes it: 0xC0 if the
screen was off else 0x00, OR 0x03 if `turn_screen_off`, OR the mode
pattern (Fast: 0x0C with a custom LUT else 0x1C; Full: 0x34;
HalfRefresh: 0xD4). -/
def specDisplayModeByte (mode : RefreshMode) (wasOn lut turnOff : Bool) : Nat :=
  (if wasOn then 0x00 else 0xC0) |||
  (if turnOff then 0x03 else 0x00) |||
  (match mode with
   | .Fast => if lut then 0x0C else 0x1C
   | .Full => 0x34
   | .HalfRefresh => 0xD4)

/-- The event sequence a successful `refresh` emits, per claims C3/C4:
display-update-control-1 with the comparison byte and a 0x00 filler, the
HalfRefresh write-temperature pair, display-update-control-2 with the
bit-flag byte, master activation, and the busy wait. -/
def specRefreshTrace (mode : RefreshMode) (wasOn lut turnOff : Bool) : List Event :=
  [Event.command 0x21,
   Event.data [(match mode with
     | .Fast => (0x00 : Nat)
     | .Full | .HalfRefresh => 0x40), 0x00]] ++
  (match mode with
   | .HalfRefresh => [Event.command 0x1A, Event.data [0x5A]]
   | _ => []) ++
  [Event.command 0x22, Event.data [specDisplayModeByte mode wasOn lut turnOff],
   Event.command 0x20, Event.waitBusy]

/-- A monadic driver computation never changes `is_custom_lut_active`,
whatever the environment does. -/
def PreservesLut {E α : Type} (m : M E α) : Prop :=
  ∀ s : Driver, ((m s).2).isCustomLutActive = s.isCustomLutActive

/-- The driver operations of claim C9, with their arguments. -/
inductive Op where
  | reset
  | initializeController
  | setRamArea (x y width height : Nat)
  | refreshOp (mode : RefreshMode) (turnScreenOff : Bool)
  | displayOp (mode : RefreshMode) (frameBuffer : List Nat)
  | enterDeepSleep

/-- The driver state an operation leaves behind (whether it succeeds or
fails) under a given environment. -/
def runOp (env : Env) : Op → Driver → Driver
  | .reset, s => ((hardware_reset : M Unit Unit) s).2
  | .initializeController, s => (initialize_controller env s).2
  | .setRamArea x y w h, s => (set_ram_area env x y w h s).2
  | .refreshOp m t, s => (refresh env m t s).2
  | .displayOp m fb, s => (display env m fb s).2
  | .enterDeepSleep, s => (enter_deep_sleep env s).2

/-! ### Arithmetic helper lemmas -/

theorem M.pure_apply (a : α) (s : Driver) : (pure a : M E α) s = (.ok a, s) := rfl

theorem M.bind_apply (x : M E α) (f : α → M E β) (s : Driver) :
    (x >>= f) s =
      match x s with
      | (.ok a, s') => f a s'
      | (.error e, s') => (.error e, s') := rfl

theorem adaptE_apply (g : E → E') (x : M E α) (s : Driver) :
    adaptE g x s =
      match x s with
      | (.ok a, s') => (.ok a, s')
      | (.error e, s') => (.error (g e), s') := rfl

theorem wsub16_eq_sub {a b : Nat} (h1 : b ≤ a) (h2 : a < 65536) : wsub16 a b = a - b := by
  unfold wsub16
  omega

theorem wsub16_wrap {a b : Nat} (h1 : a < b) (h2 : b < 65536) : wsub16 a b = a + 65536 - b := by
  unfold wsub16
  omega

theorem wadd16_eq_add {a b : Nat} (h : a + b < 65536) : wadd16 a b = a + b := by
  unfold wadd16
  omega

theorem wsub64_eq_sub {a b : Nat} (h1 : b ≤ a) (h2 : a < 18446744073709551616) :
    wsub64 a b = a - b := by
  unfold wsub64
  omega

theorem wadd64_eq_add {a b : Nat} (h : a + b < 18446744073709551616) :
    wadd64 a b = a + b := by
  unfold wadd64
  omega

theorem wmul64_eq_mul {a b : Nat} (h1 : a < 18446744073709551616)
    (h2 : b < 18446744073709551616) (h3 : a * b < 18446744073709551616) :
    wmul64 a b = a * b := by
  unfold wmul64
  rw [Nat.mod_eq_of_lt h1, Nat.mod_eq_of_lt h2, Nat.mod_eq_of_lt h3]

/-! ### Characterization of `draw_pixel` -/

/-- On the logical region `x < 480`, `y < 480` the arithmetic of the pixel
mapping does not wrap, the computed byte index is in bounds, and the draw
succeeds, updating exactly the byte at
`(480 - x - 1) * 100 + y / 8`. -/
theorem draw_pixel_ok (x y : Nat) (hx : x < 480) (hy : y < 480)
    (c : BinaryColor) (f : Frame) :
    draw_pixel x y c f = some (.ok (), ⟨fun j =>
      if j = (480 - x - 1) * 100 + y / 8 then
        (match c with
         | .Off => f.buffer ((480 - x - 1) * 100 + y / 8) ||| 1 <<< (7 - y % 8)
         | .On => f.buffer ((480 - x - 1) * 100 + y / 8) &&& (255 ^^^ 1 <<< (7 - y % 8)))
      else f.buffer j, f.orientation⟩) := by
  have c1 : ¬((x : Int) < 0 ∨ 65535 < (x : Int)) := by omega
  have c2 : ¬((y : Int) < 0 ∨ 65535 < (y : Int)) := by omega
  have e1 : (x : Int).toNat = x := Int.toNat_natCast x
  have e2 : (y : Int).toNat = y := Int.toNat_natCast y
  have hw : wsub16 DISPLAY_HEIGHT x = 480 - x := by
    rw [show DISPLAY_HEIGHT = 480 from rfl, wsub16_eq_sub (by omega) (by omega)]
  have hw2 : wsub64 (480 - x) 1 = 480 - x - 1 := by
    rw [wsub64_eq_sub (by omega) (by omega)]
  have hw3 : wmul64 (480 - x - 1) WIDTH_BYTES = (480 - x - 1) * 100 := by
    rw [show WIDTH_BYTES = 100 from rfl, wmul64_eq_mul (by omega) (by omega) (by omega)]
  have hw4 : wadd64 ((480 - x - 1) * 100) (y / 8) = (480 - x - 1) * 100 + y / 8 := by
    rw [wadd64_eq_add (by omega)]
  have hidx : (480 - x - 1) * 100 + y / 8 < BUFFER_SIZE := by
    have : (480 - x - 1) * 100 ≤ 479 * 100 := Nat.mul_le_mul_right 100 (by omega)
    show _ < 48000
    omega
  unfold draw_pixel
  rw [if_neg c1, if_neg c2]
  simp only [e1, e2, hw, hw2, hw3, hw4]
  rw [if_neg (by show ¬¬_; push_neg; exact ⟨by show x < 800; omega, by show y < 480; omega⟩)]
  rw [if_pos hidx]

/-- Off the u16 range or outside the `0..800 × 0..480` bounds check,
`draw_pixel` returns `OutOfBounds` and leaves the frame untouched. -/
theorem draw_pixel_oob (px py : Int) (c : BinaryColor) (f : Frame)
    (h : px < 0 ∨ py < 0 ∨ 800 ≤ px ∨ 480 ≤ py) :
    draw_pixel px py c f = some (.error .OutOfBounds, f) := by
  unfold draw_pixel
  by_cases c1 : px < 0 ∨ 65535 < px
  · rw [if_pos c1]
  · rw [if_neg c1]
    by_cases c2 : py < 0 ∨ 65535 < py
    · rw [if_pos c2]
    · rw [if_neg c2]
      rw [if_pos]
      show ¬(px.toNat < DISPLAY_WIDTH ∧ py.toNat < DISPLAY_HEIGHT)
      show ¬(px.toNat < 800 ∧ py.toNat < 480)
      omega

/-- On the region `480 ≤ x < 800`, `0 ≤ y < 480` — in bounds for the
check but outside the mapping's domain — the draw panics. -/
theorem draw_pixel_panic (px py : Int) (c : BinaryColor) (f : Frame)
    (h1 : 480 ≤ px) (h2 : px < 800) (h3 : 0 ≤ py) (h4 : py < 480) :
    draw_pixel px py c f = none := by
  have c1 : ¬(px < 0 ∨ 65535 < px) := by omega
  have c2 : ¬(py < 0 ∨ 65535 < py) := by omega
  have c3 : ¬¬(px.toNat < DISPLAY_WIDTH ∧ py.toNat < DISPLAY_HEIGHT) :=
    not_not_intro ⟨show px.toNat < 800 by omega, show py.toNat < 480 by omega⟩
  unfold draw_pixel
  rw [if_neg c1, if_neg c2, if_neg c3]
  rcases Nat.lt_or_ge 480 px.toNat with hgt | hle
  · -- 480 < x: the u16 subtraction wraps, the index is far out of bounds
    have hw : wsub16 DISPLAY_HEIGHT px.toNat = 480 + 65536 - px.toNat := by
      rw [show DISPLAY_HEIGHT = 480 from rfl, wsub16_wrap (by omega) (by omega)]
    have hw2 : wsub64 (480 + 65536 - px.toNat) 1 = 480 + 65536 - px.toNat - 1 :=
      wsub64_eq_sub (by omega) (by omega)
    have hw3 : wmul64 (480 + 65536 - px.toNat - 1) WIDTH_BYTES =
        (480 + 65536 - px.toNat - 1) * 100 := by
      rw [show WIDTH_BYTES = 100 from rfl]
      exact wmul64_eq_mul (by omega) (by omega) (by omega)
    have hw4 : wadd64 ((480 + 65536 - px.toNat - 1) * 100) (py.toNat / 8) =
        (480 + 65536 - px.toNat - 1) * 100 + py.toNat / 8 :=
      wadd64_eq_add (by omega)
    simp only [hw, hw2, hw3, hw4]
    rw [if_neg (show ¬((480 + 65536 - px.toNat - 1) * 100 + py.toNat / 8 < BUFFER_SIZE) by
      show ¬(_ < 48000); omega)]
  · -- x = 480: `y_hardware = 0`, the usize decrement wraps all the way around
    have hx480 : px.toNat = 480 := by omega
    simp only [hx480]
    have hw : wsub16 DISPLAY_HEIGHT 480 = 0 := by decide
    have hw2 : wsub64 0 1 = 18446744073709551615 := by decide
    have hw3 : wmul64 18446744073709551615 WIDTH_BYTES = 18446744073709551516 := by decide
    have hw4 : wadd64 18446744073709551516 (py.toNat / 8) =
        18446744073709551516 + py.toNat / 8 :=
      wadd64_eq_add (by omega)
    simp only [hw, hw2, hw3, hw4]
    rw [if_neg (show ¬(18446744073709551516 + py.toNat / 8 < BUFFER_SIZE) by
      show ¬(_ < 48000); omega)]

/-- Bit facts for the byte updates of `draw_pixel`. -/
theorem or_mask_testBit_self (a i : Nat) : (a ||| (1 <<< i)).testBit i = true := by
  simp [Nat.testBit_or, Nat.shiftLeft_eq]

theorem or_mask_testBit_other (a i k : Nat) (h : k ≠ i) :
    (a ||| (1 <<< i)).testBit k = a.testBit k := by
  simp [Nat.testBit_or, Nat.shiftLeft_eq, Nat.testBit_two_pow_of_ne (fun he => h he.symm)]

theorem and_mask_testBit_self (a i : Nat) (h : i < 8) :
    (a &&& (255 ^^^ (1 <<< i))).testBit i = false := by
  have h255 : (255 : Nat) = 2 ^ 8 - 1 := by norm_num
  rw [Nat.testBit_and, Nat.testBit_xor, Nat.shiftLeft_eq, Nat.one_mul,
    Nat.testBit_two_pow_self, h255, Nat.testBit_two_pow_sub_one]
  simp [h]

theorem and_mask_testBit_other (a i k : Nat) (hk : k < 8) (hki : k ≠ i) :
    (a &&& (255 ^^^ (1 <<< i))).testBit k = a.testBit k := by
  have h255 : (255 : Nat) = 2 ^ 8 - 1 := by norm_num
  rw [Nat.testBit_and, Nat.testBit_xor, Nat.shiftLeft_eq, Nat.one_mul,
    Nat.testBit_two_pow_of_ne (fun he => hki he.symm), h255, Nat.testBit_two_pow_sub_one]
  simp [hk]

/-- `draw_iter` over `ps ++ qs` runs `ps` first and continues with `qs`
only when `ps` fully succeeded. -/
theorem draw_iter_append (ps qs : List (Int × Int × BinaryColor)) (f : Frame) :
    draw_iter (ps ++ qs) f =
      match draw_iter ps f with
      | some (.ok _, f₁) => draw_iter qs f₁
      | none => none
      | some (.error e, f₁) => some (.error e, f₁) := by
  induction ps generalizing f with
  | nil => rfl
  | cons p rest ih =>
    obtain ⟨px, py, c⟩ := p
    simp only [List.cons_append, draw_iter]
    cases draw_pixel px py c f with
    | none => rfl
    | some r =>
      obtain ⟨r1, f'⟩ := r
      cases r1 with
      | ok a => exact ih f'
      | error e => rfl

/-! ### Claims C1, C2, C8 (frame buffer) -/

/-- Claim C1, counterexample: `(480, 0)` is in bounds for the code's check
(`x < 800`, `y < 480`), yet drawing it does not set any bit — the
`480 - x` / `- 1` arithmetic wraps and the draw panics (`none`), so the
claimed mapping (which would put the bit at hardware row `-1`) is not
realized. -/
theorem claim1_counterexample :
    draw_pixel 480 0 BinaryColor.Off Frame.default = none :=
  draw_pixel_panic 480 0 BinaryColor.Off Frame.default (by norm_num) (by norm_num)
    (by norm_num) (by norm_num)

/-- Claim C1 (amended to the mapping's actual domain `x < 480`): drawing
`(x, y)` with `Off` sets exactly the bit `7 - y % 8` of byte
`((480 - x) - 1) * 100 + y / 8` to 1 and changes nothing else; drawing
with `On` clears exactly that bit to 0; no other byte of the buffer
changes. -/
theorem claim1_theorem (x y : Nat) (f : Frame) (hx : x < 480) (hy : y < 480) :
    ∃ fOff fOn,
      draw_pixel x y BinaryColor.Off f = some (.ok (), fOff) ∧
      draw_pixel x y BinaryColor.On f = some (.ok (), fOn) ∧
      (fOff.buffer ((480 - x - 1) * 100 + y / 8)).testBit (7 - y % 8) = true ∧
      (fOn.buffer ((480 - x - 1) * 100 + y / 8)).testBit (7 - y % 8) = false ∧
      (∀ k, k ≠ 7 - y % 8 →
        (fOff.buffer ((480 - x - 1) * 100 + y / 8)).testBit k =
          (f.buffer ((480 - x - 1) * 100 + y / 8)).testBit k) ∧
      (∀ k, k < 8 → k ≠ 7 - y % 8 →
        (fOn.buffer ((480 - x - 1) * 100 + y / 8)).testBit k =
          (f.buffer ((480 - x - 1) * 100 + y / 8)).testBit k) ∧
      (∀ j, j ≠ (480 - x - 1) * 100 + y / 8 → fOff.buffer j = f.buffer j) ∧
      (∀ j, j ≠ (480 - x - 1) * 100 + y / 8 → fOn.buffer j = f.buffer j) := by
  refine ⟨_, _, draw_pixel_ok x y hx hy .Off f, draw_pixel_ok x y hx hy .On f,
    ?_, ?_, ?_, ?_, ?_, ?_⟩
  · simp only [if_pos rfl]
    exact or_mask_testBit_self _ _
  · simp only [if_pos rfl]
    exact and_mask_testBit_self _ _ (by omega)
  · intro k hk
    simp only [if_pos rfl]
    exact or_mask_testBit_other _ _ _ hk
  · intro k hk8 hk
    simp only [if_pos rfl]
    exact and_mask_testBit_other _ _ _ hk8 hk
  · intro j hj
    simp only [if_neg hj]
  · intro j hj
    simp only [if_neg hj]

/-- Claim C1, witness: the amended theorem applied at `(0, 0)` on the
default frame. -/
theorem claim1_witness :
    ∃ fOff fOn,
      draw_pixel 0 0 BinaryColor.Off Frame.default = some (.ok (), fOff) ∧
      draw_pixel 0 0 BinaryColor.On Frame.default = some (.ok (), fOn) ∧
      (fOff.buffer ((480 - 0 - 1) * 100 + 0 / 8)).testBit (7 - 0 % 8) = true ∧
      (fOn.buffer ((480 - 0 - 1) * 100 + 0 / 8)).testBit (7 - 0 % 8) = false ∧
      (∀ k, k ≠ 7 - 0 % 8 →
        (fOff.buffer ((480 - 0 - 1) * 100 + 0 / 8)).testBit k =
          (Frame.default.buffer ((480 - 0 - 1) * 100 + 0 / 8)).testBit k) ∧
      (∀ k, k < 8 → k ≠ 7 - 0 % 8 →
        (fOn.buffer ((480 - 0 - 1) * 100 + 0 / 8)).testBit k =
          (Frame.default.buffer ((480 - 0 - 1) * 100 + 0 / 8)).testBit k) ∧
      (∀ j, j ≠ (480 - 0 - 1) * 100 + 0 / 8 → fOff.buffer j = Frame.default.buffer j) ∧
      (∀ j, j ≠ (480 - 0 - 1) * 100 + 0 / 8 → fOn.buffer j = Frame.default.buffer j) :=
  claim1_theorem 0 0 Frame.default (by norm_num) (by norm_num)

/-- Claim C2, counterexample: `(500, 3)` passes the bounds check
(`500 < 800`, `3 < 480`) and fits u16, so the claim says the draw
succeeds; the code instead panics on the wrapped pixel-mapping
arithmetic. -/
theorem claim2_counterexample :
    draw_pixel 500 3 BinaryColor.On Frame.default = none :=
  draw_pixel_panic 500 3 BinaryColor.On Frame.default (by norm_num) (by norm_num)
    (by norm_num) (by norm_num)

/-- Claim C2 (amended): `draw_pixel` fails with `OutOfBounds` exactly when
the coordinate is negative, `x ≥ 800` or `y ≥ 480` (values above u16 are
subsumed by those bounds), leaving the buffer unmodified; it succeeds
exactly when `x < 480` and `y < 480`; on the remaining in-check region
`480 ≤ x < 800` it panics instead of succeeding.  In a batch, pixels drawn
before a failing one stay written: if the prefix `ps` succeeded producing
`f₁` and the next pixel is out of bounds, the whole batch returns
`OutOfBounds` with exactly the state `f₁`. -/
theorem claim2_theorem (px py : Int) (c : BinaryColor) (f : Frame) :
    ((draw_pixel px py c f = some (.error .OutOfBounds, f)) ↔
      (px < 0 ∨ py < 0 ∨ 800 ≤ px ∨ 480 ≤ py)) ∧
    ((∃ f', draw_pixel px py c f = some (.ok (), f')) ↔
      (0 ≤ px ∧ px < 480 ∧ 0 ≤ py ∧ py < 480)) ∧
    ((draw_pixel px py c f = none) ↔
      (480 ≤ px ∧ px < 800 ∧ 0 ≤ py ∧ py < 480)) ∧
    (∀ (ps rest : List (Int × Int × BinaryColor)) (f₁ : Frame),
      draw_iter ps f = some (.ok (), f₁) →
      (px < 0 ∨ py < 0 ∨ 800 ≤ px ∨ 480 ≤ py) →
      draw_iter (ps ++ (px, py, c) :: rest) f = some (.error .OutOfBounds, f₁)) := by
  have hok : ∀ (a b : Int), 0 ≤ a → a < 480 → 0 ≤ b → b < 480 →
      ∃ f', draw_pixel a b c f = some (.ok (), f') := by
    intro a b ha0 ha bb0 hb
    have h := draw_pixel_ok a.toNat b.toNat (by omega) (by omega) c f
    rw [Int.toNat_of_nonneg ha0, Int.toNat_of_nonneg bb0] at h
    exact ⟨_, h⟩
  refine ⟨⟨?_, draw_pixel_oob px py c f⟩, ⟨?_, ?_⟩, ⟨?_, ?_⟩, ?_⟩
  · -- error outcome forces the error region
    intro h
    by_contra hreg
    push_neg at hreg
    obtain ⟨g1, g2, g3, g4⟩ := hreg
    rcases lt_or_ge px 480 with hlt | hge
    · obtain ⟨f', hf'⟩ := hok px py (by omega) hlt (by omega) (by omega)
      rw [hf'] at h
      simp at h
    · rw [draw_pixel_panic px py c f hge (by omega) (by omega) (by omega)] at h
      cases h
  · -- success forces the ok region
    rintro ⟨f', hf'⟩
    by_contra hreg
    rcases Decidable.em (px < 0 ∨ py < 0 ∨ 800 ≤ px ∨ 480 ≤ py) with herr | herr
    · rw [draw_pixel_oob px py c f herr] at hf'
      simp at hf'
    · push_neg at herr
      obtain ⟨g1, g2, g3, g4⟩ := herr
      have hge : 480 ≤ px := by
        by_contra hlt
        exact absurd ⟨by omega, by omega, by omega, by omega⟩ hreg
      rw [draw_pixel_panic px py c f hge (by omega) (by omega) (by omega)] at hf'
      cases hf'
  · -- the ok region succeeds
    rintro ⟨h1, h2, h3, h4⟩
    exact hok px py h1 h2 h3 h4
  · -- a panic forces the panic region
    intro h
    rcases Decidable.em (px < 0 ∨ py < 0 ∨ 800 ≤ px ∨ 480 ≤ py) with herr | herr
    · rw [draw_pixel_oob px py c f herr] at h
      cases h
    · push_neg at herr
      obtain ⟨g1, g2, g3, g4⟩ := herr
      rcases lt_or_ge px 480 with hlt | hge
      · obtain ⟨f', hf'⟩ := hok px py (by omega) hlt (by omega) (by omega)
        rw [hf'] at h
        cases h
      · exact ⟨hge, by omega, by omega, by omega⟩
  · -- the panic region panics
    rintro ⟨h1, h2, h3, h4⟩
    exact draw_pixel_panic px py c f h1 h2 h3 h4
  · -- batch: earlier pixels stay written, one OutOfBounds error returned
    intro ps rest f₁ hps hoob
    rw [draw_iter_append, hps]
    show draw_iter ((px, py, c) :: rest) f₁ = _
    unfold draw_iter
    rw [draw_pixel_oob px py c f₁ hoob]

/-- Claim C2, witness: the amended theorem applied at the pixel `(900, 5)`
on the default frame. -/
theorem claim2_witness :
    ((draw_pixel 900 5 BinaryColor.Off Frame.default =
        some (.error .OutOfBounds, Frame.default)) ↔
      ((900 : Int) < 0 ∨ (5 : Int) < 0 ∨ (800 : Int) ≤ 900 ∨ (480 : Int) ≤ 5)) ∧
    ((∃ f', draw_pixel 900 5 BinaryColor.Off Frame.default = some (.ok (), f')) ↔
      ((0 : Int) ≤ 900 ∧ (900 : Int) < 480 ∧ (0 : Int) ≤ 5 ∧ (5 : Int) < 480)) ∧
    ((draw_pixel 900 5 BinaryColor.Off Frame.default = none) ↔
      ((480 : Int) ≤ 900 ∧ (900 : Int) < 800 ∧ (0 : Int) ≤ 5 ∧ (5 : Int) < 480)) ∧
    (∀ (ps rest : List (Int × Int × BinaryColor)) (f₁ : Frame),
      draw_iter ps Frame.default = some (.ok (), f₁) →
      ((900 : Int) < 0 ∨ (5 : Int) < 0 ∨ (800 : Int) ≤ 900 ∨ (480 : Int) ≤ 5) →
      draw_iter (ps ++ (900, 5, BinaryColor.Off) :: rest) Frame.default =
        some (.error .OutOfBounds, f₁)) :=
  claim2_theorem 900 5 BinaryColor.Off Frame.default

/-- Claim C8, counterexample: at `(0, 0)` on the default frame (whose bits
are all 1) drawing `Off` then `On` leaves the addressed bit 0, not its
original value 1 — the two draws are absolute writes, not toggles, so the
second draw's value wins regardless of the original bit. -/
theorem claim8_counterexample :
    (draw_iter [(0, 0, BinaryColor.Off), (0, 0, BinaryColor.On)] Frame.default).map
        (fun r => (r.2.buffer 47900).testBit 7) = some false ∧
    (Frame.default.buffer 47900).testBit 7 = true := by
  constructor
  · rfl
  · rfl

/-- Claim C8 (amended): for `x < 480`, `y < 480` (the draw's actual
success domain) and any initial buffer, drawing twice with opposite colors
leaves the addressed bit at the value written by the second draw — 0 after
`Off` then `On`, 1 after `On` then `Off` (so the original value is
restored exactly when it already equalled that value) — and leaves every
other byte unchanged. -/
theorem claim8_theorem (x y : Nat) (f : Frame) (hx : x < 480) (hy : y < 480) :
    ∃ f₁ f₂,
      draw_iter [(x, y, BinaryColor.Off), (x, y, BinaryColor.On)] f = some (.ok (), f₁) ∧
      draw_iter [(x, y, BinaryColor.On), (x, y, BinaryColor.Off)] f = some (.ok (), f₂) ∧
      (f₁.buffer ((480 - x - 1) * 100 + y / 8)).testBit (7 - y % 8) = false ∧
      (f₂.buffer ((480 - x - 1) * 100 + y / 8)).testBit (7 - y % 8) = true ∧
      (∀ j, j ≠ (480 - x - 1) * 100 + y / 8 → f₁.buffer j = f.buffer j) ∧
      (∀ j, j ≠ (480 - x - 1) * 100 + y / 8 → f₂.buffer j = f.buffer j) := by
  refine ⟨⟨fun j => if j = (480 - x - 1) * 100 + y / 8 then
      (f.buffer ((480 - x - 1) * 100 + y / 8) ||| 1 <<< (7 - y % 8)) &&&
        (255 ^^^ 1 <<< (7 - y % 8))
    else f.buffer j, f.orientation⟩,
    ⟨fun j => if j = (480 - x - 1) * 100 + y / 8 then
      (f.buffer ((480 - x - 1) * 100 + y / 8) &&& (255 ^^^ 1 <<< (7 - y % 8))) |||
        1 <<< (7 - y % 8)
    else f.buffer j, f.orientation⟩, ?_, ?_, ?_, ?_, ?_, ?_⟩
  · simp only [draw_iter, draw_pixel_ok x y hx hy BinaryColor.Off,
      draw_pixel_ok x y hx hy BinaryColor.On, Option.some.injEq, Prod.mk.injEq,
      Frame.mk.injEq, true_and, and_true]
    refine funext fun j => ?_
    by_cases hj : j = (480 - x - 1) * 100 + y / 8 <;> simp [hj]
  · simp only [draw_iter, draw_pixel_ok x y hx hy BinaryColor.Off,
      draw_pixel_ok x y hx hy BinaryColor.On, Option.some.injEq, Prod.mk.injEq,
      Frame.mk.injEq, true_and, and_true]
    refine funext fun j => ?_
    by_cases hj : j = (480 - x - 1) * 100 + y / 8 <;> simp [hj]
  · simp only [if_pos rfl]
    exact and_mask_testBit_self _ _ (by omega)
  · simp only [if_pos rfl]
    exact or_mask_testBit_self _ _
  · intro j hj
    simp only [if_neg hj]
  · intro j hj
    simp only [if_neg hj]

/-- Claim C8, witness: the amended theorem applied at `(7, 12)` on the
default frame. -/
theorem claim8_witness :
    ∃ f₁ f₂,
      draw_iter [(7, 12, BinaryColor.Off), (7, 12, BinaryColor.On)] Frame.default =
        some (.ok (), f₁) ∧
      draw_iter [(7, 12, BinaryColor.On), (7, 12, BinaryColor.Off)] Frame.default =
        some (.ok (), f₂) ∧
      (f₁.buffer ((480 - 7 - 1) * 100 + 12 / 8)).testBit (7 - 12 % 8) = false ∧
      (f₂.buffer ((480 - 7 - 1) * 100 + 12 / 8)).testBit (7 - 12 % 8) = true ∧
      (∀ j, j ≠ (480 - 7 - 1) * 100 + 12 / 8 → f₁.buffer j = Frame.default.buffer j) ∧
      (∀ j, j ≠ (480 - 7 - 1) * 100 + 12 / 8 → f₂.buffer j = Frame.default.buffer j) :=
  claim8_theorem 7 12 Frame.default (by norm_num) (by norm_num)


/-! ### Driver helper lemmas -/

theorem okEnv_writeOk (n : Nat) : okEnv.writeOk n = true := rfl

theorem okEnv_busyClears (n : Nat) : okEnv.busyClears n = true := rfl

theorem set_ram_area_okEnv (x y w h : Nat) (hw : 1 ≤ w) (hh : 1 ≤ h)
    (hxw : x + w ≤ 800) (hyh : y + h ≤ 480) (s : Driver) :
    set_ram_area okEnv x y w h s = (.ok (),
      { s with
          trace := s.trace ++ specRamAreaTrace x y w h
          writes := s.writes + 18 }) := by
  have e1 : x % 65536 = x := by omega
  have e2 : y % 65536 = y := by omega
  have e3 : w % 65536 = w := by omega
  have e4 : h % 65536 = h := by omega
  have w1 : wsub16 480 y = 480 - y := wsub16_eq_sub (by omega) (by omega)
  have w2 : wsub16 (480 - y) h = 480 - y - h := wsub16_eq_sub (by omega) (by omega)
  have w3 : wadd16 x w = x + w := wadd16_eq_add (by omega)
  have w4 : wsub16 (x + w) 1 = x + w - 1 := wsub16_eq_sub (by omega) (by omega)
  have w5 : wadd16 (480 - y - h) h = 480 - y - h + h := wadd16_eq_add (by omega)
  have w6 : wsub16 (480 - y - h + h) 1 = 480 - y - h + h - 1 :=
    wsub16_eq_sub (by omega) (by omega)
  simp only [set_ram_area, DISPLAY_HEIGHT, M.bind_apply, adaptE_apply, send_command,
    send_data, okEnv, Command.toByte, e1, e2, e3, e4, w1, w2, w3, w4, w5, w6]
  simp [specRamAreaTrace, DISPLAY_HEIGHT]

theorem refresh_okEnv (mode : RefreshMode) (t : Bool) (s : Driver) :
    refresh okEnv mode t s = (.ok (),
      { s with
          isScreenOn := !t
          trace := s.trace ++ specRefreshTrace mode s.isScreenOn s.isCustomLutActive t
          writes := s.writes + (match mode with | .HalfRefresh => 7 | _ => 5)
          waits := s.waits + 1 }) := by
  cases mode <;> cases t <;> cases hS : s.isScreenOn <;> cases hL : s.isCustomLutActive <;>
    simp [refresh, M.bind_apply, M.pure_apply, adaptE_apply, send_command, send_data,
      wait_for_busy, getDriver, setScreenOn, okEnv, Command.toByte, ControlMode.toByte,
      specRefreshTrace, specDisplayModeByte, hS, hL]

theorem bind_eq_ok {E α β : Type} {x : M E α} {f : α → M E β} {s s' : Driver} {b : β}
    (h : (x >>= f) s = (.ok b, s')) :
    ∃ a s₁, x s = (.ok a, s₁) ∧ f a s₁ = (.ok b, s') := by
  rcases hx : x s with ⟨r, s₁⟩
  cases r with
  | ok a =>
    refine ⟨a, s₁, rfl, ?_⟩
    rw [M.bind_apply, hx] at h
    exact h
  | error e =>
    rw [M.bind_apply, hx] at h
    exact Except.noConfusion (congrArg Prod.fst h)

theorem adaptE_eq_ok {E E' α : Type} {g : E → E'} {x : M E α} {s s' : Driver} {b : α}
    (h : adaptE g x s = (.ok b, s')) : x s = (.ok b, s') := by
  rcases hx : x s with ⟨r, s₁⟩
  cases r with
  | ok a =>
    rw [adaptE_apply, hx] at h
    simpa using h
  | error e =>
    rw [adaptE_apply, hx] at h
    exact Except.noConfusion (congrArg Prod.fst h)

theorem prod_ok_snd {E α : Type} {a b : α} {r s' : Driver}
    (h : ((Except.ok a : Except E α), r) = (.ok b, s')) : s' = r :=
  (congrArg Prod.snd h).symm

theorem send_command_eq_ok {env : Env} {c : Command} {s s' : Driver} {u : Unit}
    (h : send_command env c s = (.ok u, s')) :
    s' = { s with trace := s.trace ++ [Event.command c.toByte], writes := s.writes + 1 } := by
  unfold send_command at h
  split at h
  · exact prod_ok_snd h
  · exact Except.noConfusion (congrArg Prod.fst h)

theorem send_data_eq_ok {env : Env} {bs : List Nat} {s s' : Driver} {u : Unit}
    (h : send_data env bs s = (.ok u, s')) :
    s' = { s with trace := s.trace ++ [Event.data bs], writes := s.writes + 1 } := by
  unfold send_data at h
  split at h
  · exact prod_ok_snd h
  · exact Except.noConfusion (congrArg Prod.fst h)

theorem wait_for_busy_eq_ok {env : Env} {s s' : Driver} {u : Unit}
    (h : wait_for_busy env s = (.ok u, s')) :
    s' = { s with trace := s.trace ++ [Event.waitBusy], waits := s.waits + 1 } := by
  unfold wait_for_busy at h
  split at h
  · exact prod_ok_snd h
  · exact Except.noConfusion (congrArg Prod.fst h)

theorem getDriver_eq_ok {E : Type} {s s' a : Driver}
    (h : (getDriver : M E Driver) s = (.ok a, s')) : a = s ∧ s' = s := by
  have h' : ((Except.ok s : Except E Driver), s) = (.ok a, s') := h
  exact ⟨(Except.ok.inj (congrArg Prod.fst h')).symm, (congrArg Prod.snd h').symm⟩

theorem refresh_ok_isScreenOn {env : Env} {mode : RefreshMode} {t : Bool}
    {s s' : Driver} {u : Unit} (h : refresh env mode t s = (.ok u, s')) :
    s'.isScreenOn = !t := by
  unfold refresh at h
  obtain ⟨_, s1, h1, h⟩ := bind_eq_ok h
  obtain ⟨_, s2, h2, h⟩ := bind_eq_ok h
  obtain ⟨s0, s3, h3, h⟩ := bind_eq_ok h
  obtain ⟨e0, e3⟩ := getDriver_eq_ok h3
  obtain ⟨dm1, s4, h4, h⟩ := bind_eq_ok h
  obtain ⟨dm2, s5, h5, h⟩ := bind_eq_ok h
  obtain ⟨dm3, s6, h6, h⟩ := bind_eq_ok h
  obtain ⟨_, s7, h7, h⟩ := bind_eq_ok h
  obtain ⟨_, s8, h8, h⟩ := bind_eq_ok h
  obtain ⟨_, s9, h9, h⟩ := bind_eq_ok h
  have f4 : s4.isScreenOn = true := by
    by_cases hS : s0.isScreenOn = true
    · rw [if_neg (by simp [hS])] at h4
      rw [prod_ok_snd h4, e3, ← e0]
      exact hS
    · simp only [Bool.not_eq_true] at hS
      rw [if_pos (by simp [hS])] at h4
      rw [prod_ok_snd h4]
  have f5 : s5.isScreenOn = !t := by
    cases t with
    | true =>
      rw [if_pos rfl] at h5
      rw [prod_ok_snd h5]
      rfl
    | false =>
      rw [if_neg (by simp)] at h5
      rw [prod_ok_snd h5]
      exact f4
  have f6 : s6.isScreenOn = s5.isScreenOn := by
    cases mode with
    | Fast =>
      obtain ⟨a, sA, hA, hB⟩ := bind_eq_ok h6
      obtain ⟨eA, eB⟩ := getDriver_eq_ok hA
      rw [prod_ok_snd hB, eB]
    | Full => rw [prod_ok_snd h6]
    | HalfRefresh =>
      obtain ⟨_, sA, hA, hB⟩ := bind_eq_ok h6
      obtain ⟨_, sB, hC, hD⟩ := bind_eq_ok hB
      rw [prod_ok_snd hD, send_data_eq_ok (adaptE_eq_ok hC),
        send_command_eq_ok (adaptE_eq_ok hA)]
  rw [wait_for_busy_eq_ok (adaptE_eq_ok h),
    send_command_eq_ok (adaptE_eq_ok h9),
    send_data_eq_ok (adaptE_eq_ok h8),
    send_command_eq_ok (adaptE_eq_ok h7)]
  show s6.isScreenOn = !t
  rw [f6, f5]

theorem display_ok_isScreenOn {env : Env} {mode : RefreshMode} {fb : List Nat}
    {s s' : Driver} {u : Unit} (h : display env mode fb s = (.ok u, s')) :
    s'.isScreenOn = true := by
  unfold display at h
  obtain ⟨s0, s1, h1, h⟩ := bind_eq_ok h
  obtain ⟨_, s2, h2, h⟩ := bind_eq_ok h
  obtain ⟨_, s3, h3, h⟩ := bind_eq_ok h
  exact refresh_ok_isScreenOn (adaptE_eq_ok h)

theorem enter_deep_sleep_ok_isScreenOn {env : Env} {s s' : Driver} {u : Unit}
    (h : enter_deep_sleep env s = (.ok u, s')) : s'.isScreenOn = false := by
  unfold enter_deep_sleep at h
  obtain ⟨s0, s1, h1, h⟩ := bind_eq_ok h
  obtain ⟨e0, e1⟩ := getDriver_eq_ok h1
  obtain ⟨_, s2, h2, h⟩ := bind_eq_ok h
  obtain ⟨_, s3, h3, h⟩ := bind_eq_ok h
  have f2 : s2.isScreenOn = false := by
    by_cases hS : s0.isScreenOn = true
    · rw [if_pos hS] at h2
      obtain ⟨_, sA, hA, hB⟩ := bind_eq_ok h2
      obtain ⟨_, sB, hC, hD⟩ := bind_eq_ok hB
      obtain ⟨_, sC, hE, hF⟩ := bind_eq_ok hD
      obtain ⟨_, sD, hG, hH⟩ := bind_eq_ok hF
      obtain ⟨_, sE, hI, hJ⟩ := bind_eq_ok hH
      rw [prod_ok_snd hJ]
    · rw [if_neg hS] at h2
      rw [prod_ok_snd h2, e1, ← e0]
      simpa using hS
  rw [send_data_eq_ok (adaptE_eq_ok h), send_command_eq_ok (adaptE_eq_ok h3)]
  exact f2

theorem PreservesLut.bind {E α β : Type} {x : M E α} {f : α → M E β}
    (hx : PreservesLut x) (hf : ∀ a, PreservesLut (f a)) : PreservesLut (x >>= f) := by
  intro s
  rw [M.bind_apply]
  rcases hxs : x s with ⟨r, s₁⟩
  have h1 : s₁.isCustomLutActive = s.isCustomLutActive := by
    have h2 := hx s
    rw [hxs] at h2
    exact h2
  cases r with
  | ok a => exact (hf a s₁).trans h1
  | error e => exact h1

theorem PreservesLut.adapt {E E' α : Type} {g : E → E'} {x : M E α}
    (hx : PreservesLut x) : PreservesLut (adaptE g x) := by
  intro s
  rw [adaptE_apply]
  rcases hxs : x s with ⟨r, s₁⟩
  have h1 := hx s
  rw [hxs] at h1
  cases r with
  | ok a => exact h1
  | error e => exact h1

theorem PreservesLut.step {E E' α β : Type} {g : E' → E} {x : M E' α} {f : α → M E β}
    (hx : PreservesLut x) (hf : ∀ a, PreservesLut (f a)) :
    PreservesLut (adaptE g x >>= f) :=
  .bind (.adapt hx) hf

theorem PreservesLut.ite {E α : Type} {c : Prop} [Decidable c] {x y : M E α}
    (hx : PreservesLut x) (hy : PreservesLut y) : PreservesLut (if c then x else y) := by
  split
  · exact hx
  · exact hy

theorem pres_pure {E α : Type} {a : α} : PreservesLut (pure a : M E α) := fun _ => rfl

theorem pres_getDriver {E : Type} : PreservesLut (getDriver : M E Driver) := fun _ => rfl

theorem pres_setScreenOn {E : Type} {b : Bool} :
    PreservesLut (setScreenOn b : M E Unit) := fun _ => rfl

theorem pres_dcHighOp {E : Type} : PreservesLut (dcHighOp : M E Unit) := fun _ => rfl

theorem pres_hardware_reset {E : Type} :
    PreservesLut (hardware_reset : M E Unit) := fun _ => rfl

theorem pres_send_command {env : Env} {c : Command} :
    PreservesLut (send_command env c) := by
  intro s
  unfold send_command
  split <;> rfl

theorem pres_send_data {env : Env} {bs : List Nat} :
    PreservesLut (send_data env bs) := by
  intro s
  unfold send_data
  split <;> rfl

theorem pres_wait_for_busy {env : Env} : PreservesLut (wait_for_busy env) := by
  intro s
  unfold wait_for_busy
  split <;> rfl

theorem pres_set_ram_area {env : Env} {x y w h : Nat} :
    PreservesLut (set_ram_area env x y w h) := by
  unfold set_ram_area
  refine .step pres_send_command fun _ => ?_
  refine .step pres_send_data fun _ => ?_
  refine .step pres_send_command fun _ => ?_
  refine .step pres_send_data fun _ => ?_
  refine .step pres_send_data fun _ => ?_
  refine .step pres_send_data fun _ => ?_
  refine .step pres_send_data fun _ => ?_
  refine .step pres_send_command fun _ => ?_
  refine .step pres_send_data fun _ => ?_
  refine .step pres_send_data fun _ => ?_
  refine .step pres_send_data fun _ => ?_
  refine .step pres_send_data fun _ => ?_
  refine .step pres_send_command fun _ => ?_
  refine .step pres_send_data fun _ => ?_
  refine .step pres_send_data fun _ => ?_
  refine .step pres_send_command fun _ => ?_
  refine .step pres_send_data fun _ => ?_
  exact .adapt pres_send_data

theorem pres_initialize_controller {env : Env} :
    PreservesLut (initialize_controller env) := by
  unfold initialize_controller
  refine .step pres_send_command fun _ => ?_
  refine .step pres_wait_for_busy fun _ => ?_
  refine .step pres_send_command fun _ => ?_
  refine .step pres_send_data fun _ => ?_
  refine .step pres_send_command fun _ => ?_
  refine .step pres_send_data fun _ => ?_
  refine .step pres_send_data fun _ => ?_
  refine .step pres_send_data fun _ => ?_
  refine .step pres_send_data fun _ => ?_
  refine .step pres_send_data fun _ => ?_
  refine .step pres_send_data fun _ => ?_
  refine .step pres_send_command fun _ => ?_
  refine .step pres_send_data fun _ => ?_
  refine .step pres_send_data fun _ => ?_
  refine .step pres_send_data fun _ => ?_
  refine .step pres_send_command fun _ => ?_
  refine .step pres_send_data fun _ => ?_
  refine .step pres_set_ram_area fun _ => ?_
  refine .step pres_send_command fun _ => ?_
  refine .step pres_send_data fun _ => ?_
  refine .step pres_wait_for_busy fun _ => ?_
  refine .step pres_send_command fun _ => ?_
  refine .step pres_send_data fun _ => ?_
  exact .adapt pres_wait_for_busy

theorem pres_refresh {env : Env} {mode : RefreshMode} {t : Bool} :
    PreservesLut (refresh env mode t) := by
  unfold refresh
  refine .step pres_send_command fun _ => ?_
  refine .step pres_send_data fun _ => ?_
  refine .bind pres_getDriver fun s0 => ?_
  refine .bind (.ite (.bind pres_setScreenOn fun _ => pres_pure) pres_pure) fun dm1 => ?_
  refine .bind (.ite (.bind pres_setScreenOn fun _ => pres_pure) pres_pure) fun dm2 => ?_
  refine .bind ?_ fun dm3 => ?_
  · cases mode with
    | Fast => exact .bind pres_getDriver fun _ => pres_pure
    | Full => exact pres_pure
    | HalfRefresh =>
      exact .step pres_send_command fun _ => .step pres_send_data fun _ => pres_pure
  · refine .step pres_send_command fun _ => ?_
    refine .step pres_send_data fun _ => ?_
    refine .step pres_send_command fun _ => ?_
    exact .adapt pres_wait_for_busy

theorem pres_display {env : Env} {mode : RefreshMode} {fb : List Nat} :
    PreservesLut (display env mode fb) := by
  unfold display
  refine .bind pres_getDriver fun s => ?_
  refine .bind (.adapt pres_set_ram_area) fun _ => ?_
  refine .bind ?_ fun _ => ?_
  · cases (if !s.isScreenOn then RefreshMode.HalfRefresh else mode) with
    | Fast =>
      exact .step pres_send_command fun _ => .bind pres_dcHighOp fun _ =>
        .adapt pres_send_data
    | Full =>
      exact .step pres_send_command fun _ => .step pres_send_data fun _ =>
        .step pres_send_command fun _ => .adapt pres_send_data
    | HalfRefresh =>
      exact .step pres_send_command fun _ => .step pres_send_data fun _ =>
        .step pres_send_command fun _ => .adapt pres_send_data
  · exact .adapt pres_refresh

theorem pres_enter_deep_sleep {env : Env} : PreservesLut (enter_deep_sleep env) := by
  unfold enter_deep_sleep
  refine .bind pres_getDriver fun s => ?_
  refine .bind (.ite ?_ pres_pure) fun _ => ?_
  · exact .step pres_send_command fun _ => .step pres_send_data fun _ =>
      .step pres_send_command fun _ => .step pres_send_data fun _ =>
      .step pres_wait_for_busy fun _ => pres_setScreenOn
  · exact .step pres_send_command fun _ => .adapt pres_send_data

theorem runOp_preserves (env : Env) (op : Op) (s : Driver) :
    (runOp env op s).isCustomLutActive = s.isCustomLutActive := by
  cases op with
  | reset => exact pres_hardware_reset s
  | initializeController => exact pres_initialize_controller s
  | setRamArea x y w h => exact pres_set_ram_area s
  | refreshOp m t => exact pres_refresh s
  | displayOp m fb => exact pres_display s
  | enterDeepSleep => exact pres_enter_deep_sleep s


/-! ### Claims C3 - C7, C9, C10 (driver) -/

/-- Claim C3: the display-mode bit-flag byte `refresh` sends with
display-update-control-2 (0x22) is the pure function `specDisplayModeByte`
of (mode, is_screen_on, is_custom_lut_active, turn_screen_off): 0xC0 if
the screen was off else 0x00, OR 0x03 if `turn_screen_off`, OR the mode
pattern (Fast: 0x0C with a custom LUT else 0x1C; Full: 0x34; HalfRefresh:
0xD4) — for every mode and both values of each flag; HalfRefresh
additionally sends write-temperature (0x1A) with 0x5A before
display-update-control-2, as `specRefreshTrace` spells out. -/
theorem claim3_theorem (mode : RefreshMode) (t : Bool) (s : Driver) :
    refresh okEnv mode t s = (.ok (),
      { s with
          isScreenOn := !t
          trace := s.trace ++ specRefreshTrace mode s.isScreenOn s.isCustomLutActive t
          writes := s.writes + (match mode with | .HalfRefresh => 7 | _ => 5)
          waits := s.waits + 1 }) :=
  refresh_okEnv mode t s

/-- Claim C4: `display(mode, buffer)` with the screen off uses HalfRefresh
regardless of the requested mode; it writes the buffer to the black/white
RAM plane (0x24) in every mode and to the red plane (0x26) exactly when
the effective mode is Full or HalfRefresh (never Fast); it then calls
`refresh` with `turn_screen_off = false`; and after any successful call
(any environment) `is_screen_on` is true. -/
theorem claim4_theorem (mode : RefreshMode) (fb : List Nat) (s : Driver) :
    (display okEnv mode fb s = (.ok (),
      { s with
          isScreenOn := true
          trace := s.trace ++ specRamAreaTrace 0 0 800 480 ++
            (match (if !s.isScreenOn then RefreshMode.HalfRefresh else mode) with
             | .Fast => [Event.command 0x24, Event.dcHigh, Event.data fb]
             | .Full | .HalfRefresh =>
               [Event.command 0x24, Event.data fb, Event.command 0x26, Event.data fb]) ++
            specRefreshTrace (if !s.isScreenOn then RefreshMode.HalfRefresh else mode)
              s.isScreenOn s.isCustomLutActive false
          writes := s.writes + 18 +
            (match (if !s.isScreenOn then RefreshMode.HalfRefresh else mode) with
             | .Fast => 2 | .Full | .HalfRefresh => 4) +
            (match (if !s.isScreenOn then RefreshMode.HalfRefresh else mode) with
             | .HalfRefresh => 7 | _ => 5)
          waits := s.waits + 1 })) ∧
    (∀ (env : Env) (s' : Driver) (u : Unit),
      display env mode fb s = (.ok u, s') → s'.isScreenOn = true) := by
  constructor
  · cases hS : s.isScreenOn <;> cases mode <;>
      simp [display, M.bind_apply, M.pure_apply, adaptE_apply, send_command, send_data,
        getDriver, dcHighOp, okEnv_writeOk, okEnv_busyClears, Command.toByte, hS,
        DISPLAY_WIDTH, DISPLAY_HEIGHT,
        set_ram_area_okEnv 0 0 800 480 (by norm_num) (by norm_num) (by norm_num)
          (by norm_num),
        refresh_okEnv]
  · intro env s' u h
    exact display_ok_isScreenOn h

/-- Claim C5: within panel bounds (positive width and height,
`x + width ≤ 800`, `y + height ≤ 480`), `set_ram_area` emits exactly the
command/data byte sequence `specRamAreaTrace` — data-entry mode 0x01, the
X range `[x, x+width-1]` low byte then high byte, the Y range with
`y' = 480 - y - height` as high end `y'+height-1` first then low end `y'`
(each low then high), then the X counter at `x` and the Y counter at
`y'+height-1`. -/
theorem claim5_theorem (x y w h : Nat) (hw : 1 ≤ w) (hh : 1 ≤ h)
    (hxw : x + w ≤ 800) (hyh : y + h ≤ 480) (s : Driver) :
    set_ram_area okEnv x y w h s = (.ok (),
      { s with
          trace := s.trace ++ specRamAreaTrace x y w h
          writes := s.writes + 18 }) :=
  set_ram_area_okEnv x y w h hw hh hxw hyh s

/-- Claim C5, witness: the theorem applied to the driver's own full-panel
call `set_ram_area(0, 0, 800, 480)` from the freshly constructed state. -/
theorem claim5_witness :
    set_ram_area okEnv 0 0 800 480 initialDriver = (.ok (),
      { initialDriver with
          trace := initialDriver.trace ++ specRamAreaTrace 0 0 800 480
          writes := initialDriver.writes + 18 }) :=
  claim5_theorem 0 0 800 480 (by norm_num) (by norm_num) (by norm_num) (by norm_num)
    initialDriver

/-- Claim C6: in any environment where the transport write of the soft
reset succeeds but the following wait-for-busy times out,
`initialize_controller` sends only the soft-reset command (0x12), sends no
command or data byte after the failed wait, and returns the
`InitializeControllerError` variant wrapping the
`WaitForBusyTimeoutError`. -/
theorem claim6_theorem (env : Env) (s : Driver)
    (hwr : env.writeOk s.writes = true) (hbc : env.busyClears s.waits = false) :
    initialize_controller env s = (.error (.waitForBusy .mk),
      { s with
          trace := s.trace ++ [Event.command 0x12]
          writes := s.writes + 1
          waits := s.waits + 1 }) := by
  simp [initialize_controller, M.bind_apply, adaptE_apply, send_command, wait_for_busy,
    Command.toByte, hwr, hbc]

/-- Claim C6, witness: the theorem applied to the busy-never-deasserts
environment from the freshly constructed state. -/
theorem claim6_witness :
    initialize_controller timeoutEnv initialDriver = (.error (.waitForBusy .mk),
      { initialDriver with
          trace := initialDriver.trace ++ [Event.command 0x12]
          writes := initialDriver.writes + 1
          waits := initialDriver.waits + 1 }) :=
  claim6_theorem timeoutEnv initialDriver rfl rfl

/-- Claim C7: when the screen is on, `enter_deep_sleep` emits exactly
display-update-control-1 (0x21) with the bypass-red byte 0x40,
display-update-control-2 (0x22) with 0x03 (analog-off + clock-off), a
busy wait, then deep-sleep (0x10) with 0x01; when the screen is off, only
the deep-sleep pair; and after any successful call (any environment)
`is_screen_on` is false. -/
theorem claim7_theorem (s : Driver) :
    (enter_deep_sleep okEnv s = (.ok (),
      { s with
          isScreenOn := false
          trace := s.trace ++
            (if s.isScreenOn then
              [Event.command 0x21, Event.data [0x40], Event.command 0x22,
               Event.data [0x03], Event.waitBusy, Event.command 0x10, Event.data [0x01]]
             else [Event.command 0x10, Event.data [0x01]])
          writes := s.writes + (if s.isScreenOn then 6 else 2)
          waits := s.waits + (if s.isScreenOn then 1 else 0) })) ∧
    (∀ (env : Env) (s' : Driver) (u : Unit),
      enter_deep_sleep env s = (.ok u, s') → s'.isScreenOn = false) := by
  constructor
  · cases hS : s.isScreenOn <;>
      simp [enter_deep_sleep, M.bind_apply, M.pure_apply, adaptE_apply, send_command,
        send_data, wait_for_busy, getDriver, setScreenOn, okEnv_writeOk, okEnv_busyClears,
        Command.toByte, ControlMode.toByte, hS]
  · intro env s' u h
    exact enter_deep_sleep_ok_isScreenOn h

/-- Claim C9: `is_custom_lut_active` is false in a freshly constructed
driver and stays false across every sequence of driver operations (reset,
initialize_controller, set_ram_area, refresh, display, enter_deep_sleep),
under any environments and whether each step succeeds or fails. -/
theorem claim9_theorem :
    initialDriver.isCustomLutActive = false ∧
    ∀ (steps : List (Env × Op)),
      (steps.foldl (fun s p => runOp p.1 p.2 s) initialDriver).isCustomLutActive = false := by
  have key : ∀ (steps : List (Env × Op)) (s : Driver), s.isCustomLutActive = false →
      (steps.foldl (fun s p => runOp p.1 p.2 s) s).isCustomLutActive = false := by
    intro steps
    induction steps with
    | nil => exact fun s hs => hs
    | cons p rest ih =>
      intro s hs
      simp only [List.foldl_cons]
      exact ih _ ((runOp_preserves p.1 p.2 s).trans hs)
  exact ⟨rfl, fun steps => key steps initialDriver rfl⟩

/-- Claim C10, counterexample: the input `(x, y, width, height) =
(0, 480, 1, 0)` satisfies the claimed precondition
(`y + height ≤ 480`, `width ≥ 1`, `x + width ≤ 65536`), yet the u16
expression `y' + height - 1` of `set_ram_area` underflows (`0 + 0 - 1`);
and `(65535, 0, 1, 480)` also satisfies it, yet `x + width` overflows u16
before the `- 1`.  In both cases the arithmetic traps instead of being
total. -/
theorem claim10_counterexample :
    ((480 : Nat) + 0 ≤ 480 ∧ (1 : Nat) ≤ 1 ∧ (0 : Nat) + 1 ≤ 65536 ∧
      setRamAreaArith 0 480 1 0 = none) ∧
    ((0 : Nat) + 480 ≤ 480 ∧ (1 : Nat) ≤ 1 ∧ (65535 : Nat) + 1 ≤ 65536 ∧
      setRamAreaArith 65535 0 1 480 = none) := by
  decide

/-- Claim C10 (amended: `height ≥ 1` added and `x + width ≤ 65536`
tightened to `x + width ≤ 65535`): under `y + height ≤ 480`, `width ≥ 1`,
`x + width ≤ 65535` and `height ≥ 1`, none of the u16 expressions of
`set_ram_area` (`480 - y - height`, `x + width - 1`, `y' + height - 1`
and the byte splits) underflows or overflows — the checked evaluation
returns the three derived values — and the driver's own full-panel call
`set_ram_area(0, 0, 800, 480)` satisfies the precondition. -/
theorem claim10_theorem (x y w h : Nat) (hyh : y + h ≤ 480) (hw : 1 ≤ w)
    (hxw : x + w ≤ 65535) (hh : 1 ≤ h) :
    setRamAreaArith x y w h = some (480 - y - h, x + w - 1, 480 - y - h + h - 1) ∧
    setRamAreaArith 0 0 800 480 = some (0, 799, 479) := by
  constructor
  · have a1 : checkedSub16 DISPLAY_HEIGHT y = some (480 - y) := by
      unfold checkedSub16 DISPLAY_HEIGHT
      rw [if_pos (by omega)]
    have a2 : checkedSub16 (480 - y) h = some (480 - y - h) := by
      unfold checkedSub16
      rw [if_pos (by omega)]
    have a3 : checkedAdd16 x w = some (x + w) := by
      unfold checkedAdd16
      rw [if_pos (by omega)]
    have a4 : checkedSub16 (x + w) 1 = some (x + w - 1) := by
      unfold checkedSub16
      rw [if_pos (by omega)]
    have a5 : checkedAdd16 (480 - y - h) h = some (480 - y - h + h) := by
      unfold checkedAdd16
      rw [if_pos (by omega)]
    have a6 : checkedSub16 (480 - y - h + h) 1 = some (480 - y - h + h - 1) := by
      unfold checkedSub16
      rw [if_pos (by omega)]
    simp [setRamAreaArith, a1, a2, a3, a4, a5, a6]
  · decide

/-- Claim C10, witness: the amended theorem applied at the driver's own
call `(0, 0, 800, 480)`. -/
theorem claim10_witness :
    (setRamAreaArith 0 0 800 480 =
      some (480 - 0 - 480, 0 + 800 - 1, 480 - 0 - 480 + 480 - 1)) ∧
    setRamAreaArith 0 0 800 480 = some (0, 799, 479) :=
  claim10_theorem 0 0 800 480 (by norm_num) (by norm_num) (by norm_num) (by norm_num)

end Crustpoint
